import Mathlib

/-!
Verification of the todo-list CRUD/state-sync layer of the panda-planner
repository: the server-side per-id route (GET/PATCH/DELETE of
`/api/todos/[id]`), the spec-described collection operations (List, Create),
and the client-side Session (`TodoProvider`) that keeps an in-memory todo
list consistent with the store.

The embedding is shallow: the database is a list of `Todo` records,
each HTTP handler is a pure function from (session, database, request) to
(response, new database), and each Session operation is a pure function
from (round-trip outcome, session state) to (new session state, re-raise
outcome).  Timestamps are natural numbers ordered by recency.
-/

set_option autoImplicit false

/-- A todo record, after the `Todo` model: `id`, `title`,
nullable `description`, `completed`, owning user (`userId` in the Prisma
model, `ownerId` in the spec), and creation/update timestamps. -/
structure Todo where
  id : String
  title : String
  description : Option String
  completed : Bool
  userId : String
  createdAt : Nat
  updatedAt : Nat
deriving Repr, DecidableEq

/-- The error taxonomy of the HTTP surface. -/
inductive ApiError where
  | Unauthorized
  | NotFound
  | Forbidden
  | ValidationError
  | ServerError
deriving Repr, DecidableEq

/-- The HTTP status code each error kind is returned with. -/
def ApiError.status : ApiError → Nat
  | .Unauthorized => 401
  | .NotFound => 404
  | .Forbidden => 403
  | .ValidationError => 400
  | .ServerError => 500

/-- The body of a PATCH request: any subset of `\x7btitle, description,
completed\x7d`.  A field that is `none` was absent from the JSON body
(`undefined`); `description = some none` sends an explicit JSON `null`. -/
structure TodoPatch where
  title : Option String
  description : Option (Option String)
  completed : Option Bool
deriving Repr, DecidableEq

deriving instance DecidableEq for Except

/-- The JS `String.prototype.trim()`: removes leading and trailing
whitespace.  Implemented over the character list so that the kernel can
evaluate it on literals. -/
def jsTrim (s : String) : String :=
  ⟨((s.data.dropWhile Char.isWhitespace).reverse.dropWhile
      Char.isWhitespace).reverse⟩

/-- The persistence layer: the table of todo records.  `prisma.todo.findUnique
(where id)` is `find?` on the `id` field. -/
def findTodo (db : List Todo) (i : String) : Option Todo :=
  db.find? (fun t => t.id == i)

namespace Store

/-- The GET `/api/todos/[id]` handler: 401 without a session, 404 when no
record has the id, 403 when the record belongs to another user, otherwise
the record. -/
def GET (sess : Option String) (db : List Todo) (i : String) :
    Except ApiError Todo :=
  match sess with
  | none => .error .Unauthorized
  | some uid =>
    match findTodo db i with
    | none => .error .NotFound
    | some todo =>
      if todo.userId ≠ uid then .error .Forbidden
      else .ok todo

/-- The update a PATCH applies to the found record: each provided field
overwrites the stored one (`...(title !== undefined && \x7b title \x7d)` etc.).
`updatedAt := now` is modelled from the spec: the Prisma schema, which is not
among the sources, declares the column refreshed on every update
(spec section 3: `updatedAt` refreshed on every mutation). -/
def applyPatch (p : TodoPatch) (now : Nat) (t : Todo) : Todo :=
  { t with
    title := p.title.getD t.title
    description := p.description.getD t.description
    completed := p.completed.getD t.completed
    updatedAt := now }

/-- The PATCH `/api/todos/[id]` handler: session, existence and ownership
checks as in GET, then `prisma.todo.update` applies the provided fields to
the record with that id.  Returns the response and the new table. -/
def PATCH (sess : Option String) (db : List Todo) (i : String)
    (p : TodoPatch) (now : Nat) : Except ApiError Todo × List Todo :=
  match sess with
  | none => (.error .Unauthorized, db)
  | some uid =>
    match findTodo db i with
    | none => (.error .NotFound, db)
    | some existingTodo =>
      if existingTodo.userId ≠ uid then (.error .Forbidden, db)
      else
        let updatedTodo := applyPatch p now existingTodo
        (.ok updatedTodo,
         db.map (fun t => if t.id == i then updatedTodo else t))

/-- The DELETE `/api/todos/[id]` handler: session, existence and ownership
checks as in GET, then `prisma.todo.delete` removes the record with that id
and the handler returns a confirmation message. -/
def DELETE (sess : Option String) (db : List Todo) (i : String) :
    Except ApiError String × List Todo :=
  match sess with
  | none => (.error .Unauthorized, db)
  | some uid =>
    match findTodo db i with
    | none => (.error .NotFound, db)
    | some existingTodo =>
      if existingTodo.userId ≠ uid then (.error .Forbidden, db)
      else
        (.ok "Todo deleted successfully",
         db.filter (fun t => !(t.id == i)))

end Store

/-- Recency order on todo records: `a` comes before `b` when `a` was created
no earlier than `b` (newest first). -/
def newestFirstRel (a b : Todo) : Prop := b.createdAt ≤ a.createdAt

instance : DecidableRel newestFirstRel :=
  fun a b => Nat.decLe b.createdAt a.createdAt

instance : IsTotal Todo newestFirstRel :=
  ⟨fun a b => Nat.le_total b.createdAt a.createdAt⟩

instance : IsTrans Todo newestFirstRel :=
  ⟨fun _ _ _ hab hbc => Nat.le_trans hbc hab⟩

namespace Store

/-- Modelled from the spec: the collection route `GET /api/todos` (the
Store List operation) is not among the sources; per spec section 4.1 it
returns all Todos owned by the requesting identity, ordered by recency
(newest first), and fails with `Unauthorized` when there is no valid
session. -/
def LIST (sess : Option String) (db : List Todo) :
    Except ApiError (List Todo) :=
  match sess with
  | none => .error .Unauthorized
  | some uid =>
    .ok (List.insertionSort newestFirstRel
          (db.filter (fun t => t.userId == uid)))

/-- The body of a POST request: `\x7btitle, description?, completed?\x7d`.
A `none` field was absent from the JSON body. -/
structure CreateBody where
  title : Option String
  description : Option String
  completed : Option Bool
deriving Repr, DecidableEq

/-- Modelled from the spec: the collection route `POST /api/todos` (the
Store Create operation) is not among the sources; per spec sections 4.1
and 8 it rejects with `ValidationError` when `title` is empty, whitespace
only or missing (and then persists nothing), and otherwise assigns `id`,
`ownerId` and the timestamps, stores the record and returns it
(`completed` defaults to false). -/
def CREATE (sess : Option String) (db : List Todo) (body : CreateBody)
    (freshId : String) (now : Nat) : Except ApiError Todo × List Todo :=
  match sess with
  | none => (.error .Unauthorized, db)
  | some uid =>
    match body.title with
    | none => (.error .ValidationError, db)
    | some ti =>
      if jsTrim ti = "" then (.error .ValidationError, db)
      else
        let created : Todo :=
          { id := freshId
            title := ti
            description := body.description
            completed := body.completed.getD false
            userId := uid
            createdAt := now
            updatedAt := now }
        (.ok created, db ++ [created])

end Store

/-- The outcome of one awaited `fetch` round trip as the Session sees it:
`.ok` carries the decoded JSON of a success response; `.error` carries the
exception thrown either by the network layer or by the
`if (!response.ok) throw new Error(...)` guard. -/
def FetchOutcome (α : Type) : Type := Except String α

/-- The client-side Session state held by `TodoProvider`: the `todos`,
`loading` and `error` `useState` cells. -/
structure SessionState where
  todos : List Todo
  loading : Bool
  error : Option String
deriving Repr, DecidableEq

namespace Session

/-- The initial `useState` values of `TodoProvider`: empty list, loading,
no error. -/
def initialState : SessionState :=
  { todos := [], loading := true, error := none }

/-- The `fetchTodos` function of `TodoProvider`: sets `loading`, issues
`GET /api/todos`; on success it replaces `todos` with the decoded data and
clears `error`; on failure it sets the error message and leaves `todos`
untouched; `finally` clears `loading`. -/
def fetchTodos (resp : FetchOutcome (List Todo)) (st : SessionState) :
    SessionState :=
  match resp with
  | .ok data => { st with todos := data, error := none, loading := false }
  | .error _ =>
    { st with
      error := some "Failed to load todos. Please try again later."
      loading := false }

/-- The `refreshTodos` function of `TodoProvider`: awaits `fetchTodos`. -/
def refreshTodos (resp : FetchOutcome (List Todo)) (st : SessionState) :
    SessionState :=
  fetchTodos resp st

/-- The `addTodo` function of `TodoProvider`: issues `POST /api/todos`; on
success it prepends the returned record to `todos` and clears `error`; on
failure it sets the error message, leaves `todos` untouched and re-throws
the exception. -/
def addTodo (resp : FetchOutcome Todo) (st : SessionState) :
    SessionState × Except String Unit :=
  match resp with
  | .ok newTodo =>
    ({ st with todos := newTodo :: st.todos, error := none }, .ok ())
  | .error e =>
    ({ st with error := some "Failed to create todo. Please try again." },
     .error e)

/-- The `updateTodo` function of `TodoProvider`: issues
`PATCH /api/todos/[id]`; on success it replaces the entry with that id by
the returned record and clears `error`; on failure it sets the error
message, leaves `todos` untouched and re-throws the exception. -/
def updateTodo (i : String) (resp : FetchOutcome Todo) (st : SessionState) :
    SessionState × Except String Unit :=
  match resp with
  | .ok updatedTodo =>
    ({ st with
       todos := st.todos.map (fun t => if t.id == i then updatedTodo else t)
       error := none },
     .ok ())
  | .error e =>
    ({ st with error := some "Failed to update todo. Please try again." },
     .error e)

/-- The `deleteTodo` function of `TodoProvider`: issues
`DELETE /api/todos/[id]`; on success it filters the entry with that id out
of `todos` and clears `error`; on failure it sets the error message, leaves
`todos` untouched and re-throws the exception. -/
def deleteTodo (i : String) (resp : FetchOutcome Unit) (st : SessionState) :
    SessionState × Except String Unit :=
  match resp with
  | .ok _ =>
    ({ st with
       todos := st.todos.filter (fun t => !(t.id == i))
       error := none },
     .ok ())
  | .error e =>
    ({ st with error := some "Failed to delete todo. Please try again." },
     .error e)

/-- The `toggleComplete` function of `TodoProvider`: issues
`PATCH /api/todos/[id]` with body `\x7b completed: !completed \x7d`; on
success it replaces the entry with that id by the returned record and
clears `error`; on failure it sets the error message, leaves `todos`
untouched and re-throws the exception. -/
def toggleComplete (i : String) (resp : FetchOutcome Todo)
    (st : SessionState) : SessionState × Except String Unit :=
  match resp with
  | .ok updatedTodo =>
    ({ st with
       todos := st.todos.map (fun t => if t.id == i then updatedTodo else t)
       error := none },
     .ok ())
  | .error e =>
    ({ st with error := some "Failed to update todo. Please try again." },
     .error e)

/-- The single PATCH request a Session mutation issues: its path id and its
JSON body. -/
structure PatchRequest where
  pathId : String
  body : TodoPatch
deriving Repr, DecidableEq

/-- The request `updateTodo` sends: `PATCH /api/todos/[id]` with the given
updates as body. -/
def updateTodoRequest (i : String) (updates : TodoPatch) : PatchRequest :=
  { pathId := i, body := updates }

/-- The request `toggleComplete` sends: `PATCH /api/todos/[id]` with body
`\x7b completed: !completed \x7d`, where `completed` is the value the
caller passed in. -/
def toggleCompleteRequest (i : String) (completed : Bool) : PatchRequest :=
  { pathId := i
    body := { title := none, description := none, completed := some (!completed) } }

end Session

/-- What the UI edit flow does with a save click. -/
inductive SaveAction where
  | reject (msg : String)
  | save (updates : TodoPatch)
deriving Repr, DecidableEq

/-- The `handleSave` function of `TodoItem`: refuses to submit when the
edited title trims to empty, otherwise calls `updateTodo` with the trimmed
title and the trimmed description (empty description becomes null). -/
def handleSave (editedTitle editedDescription : String) : SaveAction :=
  if jsTrim editedTitle = "" then .reject "Title cannot be empty"
  else
    .save
      { title := some (jsTrim editedTitle)
        description :=
          some (if jsTrim editedDescription = "" then none
                else some (jsTrim editedDescription))
        completed := none }

/-- What the UI create form does with a submit. -/
inductive SubmitAction where
  | reject (msg : String)
  | submit (body : Store.CreateBody)
deriving Repr, DecidableEq

/-- The `handleSubmit` function of `TodoForm`: refuses to submit when the
title trims to empty, otherwise calls `addTodo` with the trimmed title, the
trimmed description (empty becomes null, sent as an absent description
field here since `CreateBody.description` is already optional) and
`completed: false`. -/
def handleSubmit (title description : String) : SubmitAction :=
  if jsTrim title = "" then .reject "Title is required"
  else
    .submit
      { title := some (jsTrim title)
        description :=
          if jsTrim description = "" then none else some (jsTrim description)
        completed := some false }

/-- A concrete stored record, used to instantiate the theorems. -/
def sampleTodo : Todo :=
  { id := "t1"
    title := "Buy milk"
    description := some "Two liters"
    completed := false
    userId := "u1"
    createdAt := 1
    updatedAt := 1 }

/-- A concrete record owned by a second user, used to instantiate the
forbidden-access theorems. -/
def foreignTodo : Todo :=
  { id := "t1"
    title := "Other task"
    description := none
    completed := false
    userId := "u2"
    createdAt := 2
    updatedAt := 2 }

/-- A concrete sample update body, used to instantiate the theorems:
description set to null, completed set to true, title absent. -/
def samplePatch : TodoPatch :=
  { title := none, description := some none, completed := some true }

/-- Looking a record up by id after replacing the record with that id finds
the replacement, provided the replacement keeps the id. -/
theorem findTodo_map_replace (db : List Todo) (i : String) (t u : Todo)
    (h : findTodo db i = some t) (hu : u.id = i) :
    findTodo (db.map (fun x => if x.id == i then u else x)) i = some u := by
  induction db with
  | nil => simp [findTodo] at h
  | cons x xs ih =>
    unfold findTodo at h ⊢
    by_cases hx : x.id = i
    · have hb : (x.id == i) = true := by simp [hx]
      simp only [List.map_cons]
      rw [if_pos hb]
      exact List.find?_cons_of_pos _ (by simp [hu])
    · have hb : (x.id == i) = false := by simp [hx]
      rw [List.find?_cons_of_neg _ (by simp [hb])] at h
      simp only [List.map_cons, hb, Bool.false_eq_true, if_false]
      rw [List.find?_cons_of_neg _ (by simp [hb])]
      exact ih h

/-- Looking a record up by id after filtering that id out finds nothing. -/
theorem findTodo_filter_ne (db : List Todo) (i : String) :
    findTodo (db.filter (fun x => !(x.id == i))) i = none := by
  unfold findTodo
  rw [List.find?_eq_none]
  intro x hx
  have := (List.mem_filter.mp hx).2
  simp only [Bool.not_eq_eq_eq_not, Bool.not_true] at this
  simp [this]

/-- C1: under a valid session, Get, Update and Delete on an id with no
record fail with NotFound; on a record owned by another user they fail with
Forbidden; the two outcomes are distinguished (distinct kinds, 404 vs 403);
and after a successful Delete of an id, a Get of that id fails with
NotFound. -/
theorem C1_store_id_ops (uid i : String) (db : List Todo) (p : TodoPatch)
    (now : Nat) :
    (findTodo db i = none →
      Store.GET (some uid) db i = .error .NotFound ∧
      (Store.PATCH (some uid) db i p now).1 = .error .NotFound ∧
      (Store.DELETE (some uid) db i).1 = .error .NotFound) ∧
    (∀ t, findTodo db i = some t → t.userId ≠ uid →
      Store.GET (some uid) db i = .error .Forbidden ∧
      (Store.PATCH (some uid) db i p now).1 = .error .Forbidden ∧
      (Store.DELETE (some uid) db i).1 = .error .Forbidden) ∧
    (ApiError.NotFound ≠ ApiError.Forbidden ∧
      ApiError.NotFound.status = 404 ∧ ApiError.Forbidden.status = 403) ∧
    (∀ t, findTodo db i = some t → t.userId = uid →
      (Store.DELETE (some uid) db i).1 = .ok "Todo deleted successfully" ∧
      Store.GET (some uid) (Store.DELETE (some uid) db i).2 i =
        .error .NotFound) := by
  refine ⟨?_, ?_, ?_, ?_⟩
  · intro h
    simp [Store.GET, Store.PATCH, Store.DELETE, h]
  · intro t h hne
    simp [Store.GET, Store.PATCH, Store.DELETE, h, hne]
  · refine ⟨by decide, rfl, rfl⟩
  · intro t h he
    have hdel : (Store.DELETE (some uid) db i).2 =
        db.filter (fun x => !(x.id == i)) := by
      simp [Store.DELETE, h, he]
    refine ⟨by simp [Store.DELETE, h, he], ?_⟩
    rw [hdel]
    simp [Store.GET, findTodo_filter_ne]

/-- Witness for C1 at concrete inputs: an empty table gives NotFound, a
record of user u2 gives Forbidden for user u1, and deleting the sample
record makes the following Get fail with NotFound. -/
theorem C1_store_id_ops_witness :
    Store.GET (some "u1") [] "t1" = .error .NotFound ∧
    Store.GET (some "u1") [foreignTodo] "t1" = .error .Forbidden ∧
    (Store.DELETE (some "u1") [sampleTodo] "t1").1 =
      .ok "Todo deleted successfully" ∧
    Store.GET (some "u1") (Store.DELETE (some "u1") [sampleTodo] "t1").2
      "t1" = .error .NotFound := by
  refine ⟨?_, ?_, ?_, ?_⟩
  · exact ((C1_store_id_ops "u1" "t1" [] ⟨none, none, none⟩ 0).1
      (by decide)).1
  · exact ((C1_store_id_ops "u1" "t1" [foreignTodo] ⟨none, none, none⟩ 0).2.1
      foreignTodo (by decide) (by decide)).1
  · exact ((C1_store_id_ops "u1" "t1" [sampleTodo] ⟨none, none, none⟩
      0).2.2.2 sampleTodo (by decide) (by decide)).1
  · exact ((C1_store_id_ops "u1" "t1" [sampleTodo] ⟨none, none, none⟩
      0).2.2.2 sampleTodo (by decide) (by decide)).2

/-- C2: the claim that no Update request can succeed while setting `title`
to the empty string fails on the code: the PATCH handler applies any
provided `title` without validation, so an authenticated owner PATCHing
`\x7b title: "" \x7d` succeeds and persists an empty title. -/
theorem C2_patch_accepts_empty_title :
    (Store.PATCH (some "u1") [sampleTodo] "t1"
        { title := some "", description := none, completed := none } 5).1 =
      .ok { sampleTodo with title := "", updatedAt := 5 } ∧
    (Store.PATCH (some "u1") [sampleTodo] "t1"
        { title := some "", description := none, completed := none } 5).2 =
      [{ sampleTodo with title := "", updatedAt := 5 }] ∧
    ({ sampleTodo with title := "", updatedAt := 5 } : Todo).title = "" := by
  refine ⟨by decide, by decide, rfl⟩

/-- C3: every Session mutation that fails leaves the in-memory list exactly
as it was, sets the user-visible error message of that operation, and
re-raises the triggering exception to the caller. -/
theorem C3_mutation_failure_keeps_state (st : SessionState) (e i : String) :
    (Session.addTodo (.error e) st).1.todos = st.todos ∧
    (Session.addTodo (.error e) st).1.error =
      some "Failed to create todo. Please try again." ∧
    (Session.addTodo (.error e) st).2 = .error e ∧
    (Session.updateTodo i (.error e) st).1.todos = st.todos ∧
    (Session.updateTodo i (.error e) st).1.error =
      some "Failed to update todo. Please try again." ∧
    (Session.updateTodo i (.error e) st).2 = .error e ∧
    (Session.deleteTodo i (.error e) st).1.todos = st.todos ∧
    (Session.deleteTodo i (.error e) st).1.error =
      some "Failed to delete todo. Please try again." ∧
    (Session.deleteTodo i (.error e) st).2 = .error e ∧
    (Session.toggleComplete i (.error e) st).1.todos = st.todos ∧
    (Session.toggleComplete i (.error e) st).1.error =
      some "Failed to update todo. Please try again." ∧
    (Session.toggleComplete i (.error e) st).2 = .error e := by
  exact ⟨rfl, rfl, rfl, rfl, rfl, rfl, rfl, rfl, rfl, rfl, rfl, rfl⟩

/-- Replacing by id in a list relates every old entry to the corresponding
new entry in the same position: the entry with the id becomes the new
record, every other entry is unchanged. -/
theorem forall₂_replace (l : List Todo) (t : Todo) (i : String) :
    List.Forall₂ (fun old new => new = if old.id = i then t else old) l
      (l.map (fun x => if x.id == i then t else x)) := by
  induction l with
  | nil => exact List.Forall₂.nil
  | cons x xs ih =>
    refine List.Forall₂.cons ?_ ih
    by_cases hx : x.id = i
    · simp [hx]
    · simp [hx]

/-- C4: a successful addTodo prepends the returned record; successful
updateTodo and toggleComplete replace, position by position, exactly the
entry whose id matches and keep every other entry unchanged; a successful
deleteTodo keeps an order-preserving sublist holding exactly the entries
whose id differs. -/
theorem C4_mutation_success_patch (st : SessionState) (t : Todo)
    (i : String) :
    (Session.addTodo (.ok t) st).1.todos = t :: st.todos ∧
    List.Forall₂ (fun old new => new = if old.id = i then t else old)
      st.todos (Session.updateTodo i (.ok t) st).1.todos ∧
    List.Forall₂ (fun old new => new = if old.id = i then t else old)
      st.todos (Session.toggleComplete i (.ok t) st).1.todos ∧
    (Session.deleteTodo i (.ok ()) st).1.todos.Sublist st.todos ∧
    (∀ x, x ∈ (Session.deleteTodo i (.ok ()) st).1.todos ↔
      x ∈ st.todos ∧ x.id ≠ i) := by
  refine ⟨rfl, forall₂_replace st.todos t i, forall₂_replace st.todos t i,
    List.filter_sublist _, ?_⟩
  intro x
  simp [Session.deleteTodo, List.mem_filter]

/-- C5: List fails with Unauthorized without a session; with a session it
returns exactly the records of the requesting identity, pairwise ordered newest
first; and after two sequential creates of titles A then B by the same
user, List returns the two records B before A. -/
theorem C5_list_owned_newest_first (db : List Todo) (uid : String) :
    Store.LIST none db = .error .Unauthorized ∧
    (∃ l, Store.LIST (some uid) db = .ok l ∧
      (∀ t, t ∈ l ↔ t ∈ db ∧ t.userId = uid) ∧
      l.Pairwise newestFirstRel) ∧
    Store.LIST (some "u1")
        (Store.CREATE (some "u1")
            (Store.CREATE (some "u1") []
                { title := some "A", description := none, completed := none }
                "idA" 1).2
            { title := some "B", description := none, completed := none }
            "idB" 2).2 =
      .ok [{ id := "idB", title := "B", description := none,
             completed := false, userId := "u1", createdAt := 2,
             updatedAt := 2 },
           { id := "idA", title := "A", description := none,
             completed := false, userId := "u1", createdAt := 1,
             updatedAt := 1 }] := by
  refine ⟨rfl, ⟨_, rfl, ?_, ?_⟩, by decide⟩
  · intro t
    rw [List.mem_insertionSort]
    simp [List.mem_filter]
  · exact List.sorted_insertionSort _ _

/-- C6: a Create whose title is missing, empty or whitespace-only fails
with ValidationError (HTTP 400) and leaves the stored table unchanged; a
Create whose title does not trim to empty stores and returns a record
carrying the fresh id, the caller as owner and the timestamps. -/
theorem C6_create_validation (uid freshId : String) (db : List Todo)
    (body : Store.CreateBody) (now : Nat) :
    (body.title = none →
      Store.CREATE (some uid) db body freshId now =
        (.error .ValidationError, db)) ∧
    (∀ ti, body.title = some ti → jsTrim ti = "" →
      Store.CREATE (some uid) db body freshId now =
        (.error .ValidationError, db)) ∧
    (∀ ti, body.title = some ti → jsTrim ti ≠ "" →
      Store.CREATE (some uid) db body freshId now =
        (.ok { id := freshId, title := ti, description := body.description,
               completed := body.completed.getD false, userId := uid,
               createdAt := now, updatedAt := now },
         db ++
           [{ id := freshId, title := ti, description := body.description,
              completed := body.completed.getD false, userId := uid,
              createdAt := now, updatedAt := now }])) ∧
    ApiError.ValidationError.status = 400 := by
  refine ⟨?_, ?_, ?_, rfl⟩
  · intro h
    simp [Store.CREATE, h]
  · intro ti h hti
    simp [Store.CREATE, h, hti]
  · intro ti h hti
    simp [Store.CREATE, h, hti]

/-- Witness for C6 at concrete inputs: a missing title and a whitespace
title fail with ValidationError persisting nothing; the title Walk dog is
stored and returned with id, owner and timestamps assigned. -/
theorem C6_create_validation_witness :
    Store.CREATE (some "u1") [sampleTodo]
        { title := none, description := none, completed := none } "t9" 9 =
      (.error .ValidationError, [sampleTodo]) ∧
    Store.CREATE (some "u1") [sampleTodo]
        { title := some "   ", description := none, completed := none }
        "t9" 9 =
      (.error .ValidationError, [sampleTodo]) ∧
    Store.CREATE (some "u1") []
        { title := some "Walk dog", description := none,
          completed := some true } "t9" 9 =
      (.ok { id := "t9", title := "Walk dog", description := none,
             completed := true, userId := "u1", createdAt := 9,
             updatedAt := 9 },
       [{ id := "t9", title := "Walk dog", description := none,
          completed := true, userId := "u1", createdAt := 9,
          updatedAt := 9 }]) := by
  refine ⟨?_, ?_, ?_⟩
  · exact (C6_create_validation "u1" "t9" [sampleTodo]
      { title := none, description := none, completed := none } 9).1 rfl
  · exact (C6_create_validation "u1" "t9" [sampleTodo]
      { title := some "   ", description := none, completed := none }
      9).2.1 "   " rfl (by decide)
  · exact (C6_create_validation "u1" "t9" []
      { title := some "Walk dog", description := none,
        completed := some true } 9).2.2.1 "Walk dog" rfl (by decide)

/-- A successful PATCH in one equation: when the id is found and owned by
the caller, the handler returns the patched record and replaces it by id in
the table. -/
theorem PATCH_ok (uid i : String) (db : List Todo) (t : Todo)
    (p : TodoPatch) (now : Nat) (h : findTodo db i = some t)
    (hu : t.userId = uid) :
    Store.PATCH (some uid) db i p now =
      (.ok (Store.applyPatch p now t),
       db.map (fun x =>
         if x.id == i then Store.applyPatch p now t else x)) := by
  simp [Store.PATCH, h, hu]

/-- C7: two successive toggles of a record, the second observing the result
of the first, return the record to its original completed value and leave
title and description (and id, owner and createdAt) exactly as before the
first toggle; only updatedAt moves. -/
theorem C7_double_toggle (uid i : String) (db : List Todo) (t : Todo)
    (n1 n2 : Nat) (h : findTodo db i = some t) (hu : t.userId = uid) :
    (Store.PATCH (some uid) db i
        (Session.toggleCompleteRequest i t.completed).body n1).1 =
      .ok { t with completed := !t.completed, updatedAt := n1 } ∧
    (Store.PATCH (some uid)
        (Store.PATCH (some uid) db i
            (Session.toggleCompleteRequest i t.completed).body n1).2 i
        (Session.toggleCompleteRequest i (!t.completed)).body n2).1 =
      .ok { t with updatedAt := n2 } := by
  have hid : t.id = i := by
    unfold findTodo at h
    have := List.find?_some h
    simpa using this
  have ht1 : Store.applyPatch
      (Session.toggleCompleteRequest i t.completed).body n1 t =
      { t with completed := !t.completed, updatedAt := n1 } := by
    simp [Store.applyPatch, Session.toggleCompleteRequest]
  have h1 := PATCH_ok uid i db t
    (Session.toggleCompleteRequest i t.completed).body n1 h hu
  rw [ht1] at h1
  have hf := findTodo_map_replace db i t
    { t with completed := !t.completed, updatedAt := n1 } h (by simp [hid])
  have h2 := PATCH_ok uid i
    (db.map (fun x => if x.id == i then
      { t with completed := !t.completed, updatedAt := n1 } else x))
    { t with completed := !t.completed, updatedAt := n1 }
    (Session.toggleCompleteRequest i (!t.completed)).body n2 hf
    (by simp [hu])
  have ht2 : Store.applyPatch
      (Session.toggleCompleteRequest i (!t.completed)).body n2
      { t with completed := !t.completed, updatedAt := n1 } =
      { t with updatedAt := n2 } := by
    simp [Store.applyPatch, Session.toggleCompleteRequest]
  rw [ht2] at h2
  refine ⟨by rw [h1], ?_⟩
  rw [h1]
  exact congrArg Prod.fst h2

/-- Witness for C7 at concrete inputs: toggling the sample record twice,
the second toggle observing the first result, yields the original record
with only updatedAt moved. -/
theorem C7_double_toggle_witness :
    (Store.PATCH (some "u1") [sampleTodo] "t1"
        (Session.toggleCompleteRequest "t1" sampleTodo.completed).body
        3).1 =
      .ok { sampleTodo with
            completed := !sampleTodo.completed
            updatedAt := 3 } ∧
    (Store.PATCH (some "u1")
        (Store.PATCH (some "u1") [sampleTodo] "t1"
            (Session.toggleCompleteRequest "t1" sampleTodo.completed).body
            3).2 "t1"
        (Session.toggleCompleteRequest "t1" (!sampleTodo.completed)).body
        4).1 =
      .ok { sampleTodo with updatedAt := 4 } :=
  C7_double_toggle "u1" "t1" [sampleTodo] sampleTodo 3 4 (by decide) rfl

/-- C8: a successful Update applies exactly the provided fields: absent
fields keep their previous value, provided fields take the provided value,
id, owner and createdAt are never changed, and updatedAt is refreshed to
the time of the update. -/
theorem C8_patch_frame (uid i : String) (db : List Todo) (t : Todo)
    (p : TodoPatch) (now : Nat) (h : findTodo db i = some t)
    (hu : t.userId = uid) :
    (Store.PATCH (some uid) db i p now).1 =
      .ok (Store.applyPatch p now t) ∧
    (Store.applyPatch p now t).id = t.id ∧
    (Store.applyPatch p now t).userId = t.userId ∧
    (Store.applyPatch p now t).createdAt = t.createdAt ∧
    (Store.applyPatch p now t).updatedAt = now ∧
    (p.title = none → (Store.applyPatch p now t).title = t.title) ∧
    (∀ s, p.title = some s → (Store.applyPatch p now t).title = s) ∧
    (p.description = none →
      (Store.applyPatch p now t).description = t.description) ∧
    (∀ d, p.description = some d →
      (Store.applyPatch p now t).description = d) ∧
    (p.completed = none →
      (Store.applyPatch p now t).completed = t.completed) ∧
    (∀ b, p.completed = some b →
      (Store.applyPatch p now t).completed = b) := by
  refine ⟨by simp [Store.PATCH, h, hu], rfl, rfl, rfl, rfl,
    ?_, ?_, ?_, ?_, ?_, ?_⟩
  · intro hn
    simp [Store.applyPatch, hn]
  · intro s hs
    simp [Store.applyPatch, hs]
  · intro hn
    simp [Store.applyPatch, hn]
  · intro d hd
    simp [Store.applyPatch, hd]
  · intro hn
    simp [Store.applyPatch, hn]
  · intro b hb
    simp [Store.applyPatch, hb]

/-- Witness for C8 at concrete inputs: patching the sample record with the
sample body (title absent, description null, completed true) keeps id,
owner, createdAt and title, sets description to null and completed to true,
and refreshes updatedAt. -/
theorem C8_patch_frame_witness :
    (Store.PATCH (some "u1") [sampleTodo] "t1" samplePatch 7).1 =
      .ok (Store.applyPatch samplePatch 7 sampleTodo) ∧
    (Store.applyPatch samplePatch 7 sampleTodo).id = sampleTodo.id ∧
    (Store.applyPatch samplePatch 7 sampleTodo).userId =
      sampleTodo.userId ∧
    (Store.applyPatch samplePatch 7 sampleTodo).createdAt =
      sampleTodo.createdAt ∧
    (Store.applyPatch samplePatch 7 sampleTodo).updatedAt = 7 ∧
    (Store.applyPatch samplePatch 7 sampleTodo).title = sampleTodo.title ∧
    (Store.applyPatch samplePatch 7 sampleTodo).description = none ∧
    (Store.applyPatch samplePatch 7 sampleTodo).completed = true := by
  have hmain := C8_patch_frame "u1" "t1" [sampleTodo] sampleTodo
    samplePatch 7 (by decide) rfl
  exact ⟨hmain.1, hmain.2.1, hmain.2.2.1, hmain.2.2.2.1, hmain.2.2.2.2.1,
    hmain.2.2.2.2.2.1 rfl, hmain.2.2.2.2.2.2.2.2.1 none rfl,
    hmain.2.2.2.2.2.2.2.2.2.2 true rfl⟩

/-- C9 counterexample: with a previously loaded non-empty list, a failed
refresh leaves the list non-empty (it is retained unchanged), while the
claim requires it to be empty after every failed List fetch. -/
theorem C9_counterexample :
    (Session.refreshTodos (.error "Failed to fetch todos")
        { todos := [sampleTodo], loading := true, error := none }).todos =
      [sampleTodo] ∧
    (Session.refreshTodos (.error "Failed to fetch todos")
        { todos := [sampleTodo], loading := true, error := none }).todos ≠
      [] ∧
    (Session.refreshTodos (.error "Failed to fetch todos")
        { todos := [sampleTodo], loading := true, error := none }).error =
      some "Failed to load todos. Please try again later." := by
  exact ⟨rfl, by decide, rfl⟩

/-- C9 as amended: a failed List fetch sets the error message, ends the
loading state and leaves the todo list unchanged; in particular on the
initial load, where the list starts empty, it remains empty. -/
theorem C9_failed_fetch_keeps_list (st : SessionState) (e : String) :
    (Session.fetchTodos (.error e) st).todos = st.todos ∧
    (Session.fetchTodos (.error e) st).error =
      some "Failed to load todos. Please try again later." ∧
    (Session.fetchTodos (.error e) st).loading = false ∧
    (Session.refreshTodos (.error e) st).todos = st.todos ∧
    Session.fetchTodos (.error e) Session.initialState =
      { todos := [], loading := false,
        error := some "Failed to load todos. Please try again later." } := by
  exact ⟨rfl, rfl, rfl, rfl, rfl⟩

/-- C10: toggleComplete of id and b issues the one PATCH that updateTodo
with body completed := not b issues, its body negates the caller-supplied
flag rather than the stored one, its state transition is exactly that of
updateTodo, and applying the request on the server sets completed to not b
whatever value the stored record carries. -/
theorem C10_toggle_equiv_update (i : String) (b : Bool)
    (resp : FetchOutcome Todo) (st : SessionState) :
    Session.toggleCompleteRequest i b =
      Session.updateTodoRequest i
        { title := none, description := none, completed := some (!b) } ∧
    (Session.toggleCompleteRequest i b).body.completed = some (!b) ∧
    Session.toggleComplete i resp st = Session.updateTodo i resp st ∧
    (∀ uid db t now, findTodo db i = some t → t.userId = uid →
      (Store.PATCH (some uid) db i
          (Session.toggleCompleteRequest i b).body now).1 =
        .ok { t with completed := !b, updatedAt := now }) := by
  refine ⟨rfl, rfl, rfl, ?_⟩
  intro uid db t now h hu
  simp [Store.PATCH, h, hu, Store.applyPatch, Session.toggleCompleteRequest]

/-- Witness for C10 at concrete inputs: a caller holding the stale value
true toggles the sample record, whose stored completed is false; the body
carries completed := false and the server stores false — the negation of
the caller flag, not of the stored value. -/
theorem C10_toggle_equiv_update_witness :
    (Session.toggleCompleteRequest "t1" true).body.completed =
      some false ∧
    (Store.PATCH (some "u1") [sampleTodo] "t1"
        (Session.toggleCompleteRequest "t1" true).body 6).1 =
      .ok { sampleTodo with completed := false, updatedAt := 6 } := by
  have hmain := C10_toggle_equiv_update "t1" true (.error "boom")
    Session.initialState
  refine ⟨hmain.2.1, ?_⟩
  have := hmain.2.2.2 "u1" [sampleTodo] sampleTodo 6 (by decide) rfl
  simpa using this
